import Mathlib

/-!
Shallow embedding of the Eight Sleep Pod temperature controller (`code.py`)
and proofs about its state-synchronization core: the shared module-level
state, the button input loops, the device poll loop, the command push loop,
the display update loop, and the authenticated HTTP client with its
retry-on-401 logic.
-/

namespace EightS

/-! ## Shared module-level state (`code.py` lines 66-79)

The module-level globals `api_lock`, `current_temp`, `device_id`, `side`,
`side_active`, `skip_next_display_off`, `target_temp`,
`target_temp_is_pending`, plus `display.brightness` (set to `0.1` at
startup).  Brightness is stored in tenths, so the startup value `0.1`
is `1` and "off" is `0`; the code only ever compares it to `0` and
assigns `0` or `0.1`. -/

structure S8State where
  api_lock : Bool
  current_temp : Int
  device_id : String
  side : String
  side_active : Bool
  skip_next_display_off : Bool
  target_temp : Int
  target_temp_is_pending : Bool
  display_brightness : Nat
deriving DecidableEq

/-- Module-level initial values: `api_lock = False`, `current_temp = 0`,
`device_id = ""`, `side = ""`, `side_active = False`,
`skip_next_display_off = True`, `target_temp = 0`,
`target_temp_is_pending = False`, `display.brightness = 0.1`. -/
def initialState : S8State :=
  { api_lock := false,
    current_temp := 0,
    device_id := "",
    side := "",
    side_active := false,
    skip_next_display_off := true,
    target_temp := 0,
    target_temp_is_pending := false,
    display_brightness := 1 }

/-! ## Python rounding

`round(x / 10)` on an integer `x`: true division followed by Python's
`round`, which rounds half to even (banker's rounding).  For the device's
level range the float quotient at a tie is exact (`n + 0.5`), so the
integer model below is faithful. -/

/-- Python `round(x / 10)` for an integer `x`: nearest integer to `x / 10`,
ties to even. -/
def py_round_div10 (x : Int) : Int :=
  let q := Int.fdiv x 10
  let r := Int.fmod x 10
  if r < 5 then q
  else if 5 < r then q + 1
  else if q % 2 = 0 then q else q + 1

/-! ## Button input loops (`temp_up_loop` lines 363-387, `temp_down_loop`
lines 390-414)

One iteration body after a debounced press.  If the display is off
(`display.brightness == 0`) the press only turns it back on and sets
`skip_next_display_off`; otherwise the target level is bumped by 1 inside
the `< 10` (resp. `> -10`) guard and `target_temp_is_pending` is set. -/

def temp_up_press (s : S8State) : S8State :=
  if s.display_brightness = 0 then
    { s with display_brightness := 1, skip_next_display_off := true }
  else if s.target_temp < 10 then
    { s with target_temp := s.target_temp + 1, target_temp_is_pending := true }
  else
    s

def temp_down_press (s : S8State) : S8State :=
  if s.display_brightness = 0 then
    { s with display_brightness := 1, skip_next_display_off := true }
  else if (-10 : Int) < s.target_temp then
    { s with target_temp := s.target_temp - 1, target_temp_is_pending := true }
  else
    s

/-- A physical button press: up (pin D5) or down (pin D6). -/
inductive Press where
  | up
  | down
deriving DecidableEq

def apply_press : Press → S8State → S8State
  | Press.up, s => temp_up_press s
  | Press.down, s => temp_down_press s

/-- A sequence of presses applied left to right. -/
def apply_presses (ps : List Press) (s : S8State) : S8State :=
  ps.foldl (fun s p => apply_press p s) s

/-! ## Device poll loop (`get_s8_device_loop` lines 325-360)

One tick.  The GET response's side-specific fields — the
`result["<side>Kelvin"]` object (`active`, `currentTargetLevel`) and
`result["<side>HeatingLevel"]` — are modelled already extracted. -/

structure KelvinPayload where
  active : Bool
  currentTargetLevel : Int
deriving DecidableEq

structure DeviceStatus where
  kelvin : KelvinPayload
  heatingLevel : Int
deriving DecidableEq

/-- Lines 341-359: field updates applied after a successful GET, ending
with `api_lock = False`.  `target_temp` is updated only when
`target_temp_is_pending` is `False`. -/
def poll_apply_response (s : S8State) (resp : DeviceStatus) : S8State :=
  let s1 := { s with side_active := resp.kelvin.active,
                     current_temp := py_round_div10 resp.heatingLevel }
  let s2 := if s1.target_temp_is_pending = false
            then { s1 with target_temp := py_round_div10 resp.kelvin.currentTargetLevel }
            else s1
  { s2 with api_lock := false }

/-- One poll tick on a successful GET: skipped entirely when
`api_lock` is held, otherwise acquire the lock and apply the response. -/
def get_s8_device_tick (s : S8State) (resp : DeviceStatus) : S8State :=
  if s.api_lock = false then
    poll_apply_response { s with api_lock := true } resp
  else
    s

/-! ## Command push loop (`set_s8_target_temp_loop` lines 295-322) -/

/-- The PUT body built at line 311: `currentLevel = target_temp * 10` and
`currentState.type = "smart"`. -/
structure TempPayload where
  currentLevel : Int
  currentStateType : String
deriving DecidableEq

def push_payload (s : S8State) : TempPayload :=
  { currentLevel := s.target_temp * 10, currentStateType := "smart" }

/-- What a push tick did: nothing (pending false or lock held), a
successful PUT of a payload, or a PUT that raised — in which case the
exception propagates out of the loop body. -/
inductive PushResult where
  | noop
  | pushed (p : TempPayload)
  | failed (p : TempPayload)
deriving DecidableEq

/-- Lines 320-321, executed only on a successful PUT. -/
def push_apply_success (s : S8State) : S8State :=
  { s with target_temp_is_pending := false, api_lock := false }

/-- One push tick.  `putSucceeds` says whether `put_8s` returns or raises.
On a raise the state is the one at the raise point: `api_lock` was set at
line 308 and lines 320-321 never run (there is no `finally`). -/
def set_s8_target_temp_tick (s : S8State) (putSucceeds : Bool) : S8State × PushResult :=
  if s.target_temp_is_pending = true then
    if s.api_lock = false then
      let locked := { s with api_lock := true }
      if putSucceeds then
        (push_apply_success locked, PushResult.pushed (push_payload s))
      else
        (locked, PushResult.failed (push_payload s))
    else (s, PushResult.noop)
  else (s, PushResult.noop)

/-! ## Display update loop (`update_display_loop` lines 417-459) -/

def HOT : Nat := 0xc93412
def ZERO : Nat := 0xe0e0e0
def COLD : Nat := 0x4c34eb

/-- `set_color` lines 219-232. -/
def set_color (temp_level : Int) : Nat :=
  if temp_level > 0 then HOT
  else if temp_level < 0 then COLD
  else ZERO

/-- The loop's change-tracking locals together with the text/color last
written to the two label areas (they are always written together). -/
structure DisplayState where
  current_color_last_set : Nat
  current_text_last_set : String
  target_color_last_set : Nat
  target_text_last_set : String
deriving DecidableEq

/-- Initial display loop locals (lines 429-433); the labels start as
`"---"`. -/
def initialDisplay : DisplayState :=
  { current_color_last_set := ZERO,
    current_text_last_set := "---",
    target_color_last_set := ZERO,
    target_text_last_set := "---" }

/-- One display tick (loop body lines 436-457) reading `current_temp`,
`target_temp`, `side_active`. -/
def update_display_tick (d : DisplayState) (current_temp target_temp : Int)
    (side_active : Bool) : DisplayState :=
  let current_color := set_color current_temp
  let d1 := if d.current_color_last_set ≠ current_color
            then { d with current_color_last_set := current_color } else d
  let d2 := if d1.current_text_last_set ≠ toString current_temp
            then { d1 with current_text_last_set := toString current_temp } else d1
  let target_color := set_color target_temp
  let d3 := if d2.target_color_last_set ≠ target_color
            then { d2 with target_color_last_set := target_color } else d2
  if d3.target_text_last_set ≠ toString target_temp then
    if side_active then { d3 with target_text_last_set := toString target_temp }
    else { d3 with target_text_last_set := "Off" }
  else d3

/-! ## HTTP client (`get_8s` lines 137-165, `put_8s` lines 168-199)

Both functions read the first response's status code and body into
locals, then on a 401 call `get_8s_access_token()` and re-issue the
request — but assign the new response object without re-reading its
status code or body, so the subsequent `!= 200` check and the return
value still use the first response.  `put_8s` additionally re-issues the
retry with `requests.get` (line 194), not `requests.put`. -/

structure HttpResponse where
  status_code : Nat
  body : Nat
deriving DecidableEq

/-- The environment a single client call runs against: the response to the
original request, the response the re-issued request would get after a
re-authentication, and whether `get_8s_access_token` succeeds (its own
non-200 check raises). -/
structure RemoteEnv where
  first : HttpResponse
  retry : HttpResponse
  auth_ok : Bool
deriving DecidableEq

inductive HttpMethod where
  | get
  | put
deriving DecidableEq

/-- How a client call ends: returning a JSON body, raising
`RuntimeError` on the saved non-200 status, or raising from inside
`get_8s_access_token`. -/
inductive CallResult where
  | ok (body : Nat)
  | runtimeError (status : Nat)
  | authError
deriving DecidableEq

/-- A client call's outcome plus its observable side effects: how many
times `get_8s_access_token` ran, how many HTTP requests were sent
(auth requests aside), and the method of the re-issued request if one
was sent. -/
structure CallTrace where
  result : CallResult
  reauth_calls : Nat
  requests_sent : Nat
  retry_method : Option HttpMethod
deriving DecidableEq

/-- `get_8s` lines 137-165.  On a 401 the token refresh runs and the
request is re-issued (as a GET), but `response_status_code` and
`response_json` keep the first response's values, so the call then raises
on the saved 401; `env.retry` is never consulted. -/
def get_8s (env : RemoteEnv) : CallTrace :=
  if env.first.status_code = 401 then
    if env.auth_ok then
      { result := CallResult.runtimeError 401, reauth_calls := 1,
        requests_sent := 2, retry_method := some HttpMethod.get }
    else
      { result := CallResult.authError, reauth_calls := 1,
        requests_sent := 1, retry_method := none }
  else if env.first.status_code = 200 then
    { result := CallResult.ok env.first.body, reauth_calls := 0,
      requests_sent := 1, retry_method := none }
  else
    { result := CallResult.runtimeError env.first.status_code,
      reauth_calls := 0, requests_sent := 1, retry_method := none }

/-- `put_8s` lines 168-199: same structure as `get_8s`, and the line-194
retry is likewise issued with `requests.get`. -/
def put_8s (env : RemoteEnv) : CallTrace :=
  if env.first.status_code = 401 then
    if env.auth_ok then
      { result := CallResult.runtimeError 401, reauth_calls := 1,
        requests_sent := 2, retry_method := some HttpMethod.get }
    else
      { result := CallResult.authError, reauth_calls := 1,
        requests_sent := 1, retry_method := none }
  else if env.first.status_code = 200 then
    { result := CallResult.ok env.first.body, reauth_calls := 0,
      requests_sent := 1, retry_method := none }
  else
    { result := CallResult.runtimeError env.first.status_code,
      reauth_calls := 0, requests_sent := 1, retry_method := none }

/-! ## Process-level model (`main` lines 480-503, top level lines 508-515)

`asyncio.run(main())` drives the loops cooperatively; the HTTP calls are
synchronous, but we expose each remote call as a start step (the lock
test-and-set, lines 336-337 / 306-308) and a finish step (response
handling, or the raise) so that "in-flight" sections are visible states.
An exception escaping a loop body propagates through `asyncio.gather` to
the module-level `except`, which logs, sleeps 10 s and calls
`supervisor.reload()` — restarting the whole program from its initial
module state. -/

inductive ProcPhase where
  | running
  | restarting
deriving DecidableEq

structure SysState where
  phase : ProcPhase
  st : S8State
  pollInCall : Bool
  pushInCall : Bool
deriving DecidableEq

/-- Process start: fresh module state, no in-flight call. -/
def initSys : SysState :=
  { phase := ProcPhase.running, st := initialState,
    pollInCall := false, pushInCall := false }

/-- One scheduling step of the running program. -/
inductive SysStep : SysState → SysState → Prop where
  /-- Poll tick finds `api_lock` free (line 336): acquire it (line 337)
  and issue the GET. -/
  | pollStart (σ : SysState) (hph : σ.phase = ProcPhase.running)
      (hl : σ.st.api_lock = false) (hc : σ.pollInCall = false) :
      SysStep σ { σ with st := { σ.st with api_lock := true }, pollInCall := true }
  /-- Poll tick finds `api_lock` held: the tick is skipped entirely. -/
  | pollSkip (σ : SysState) (hph : σ.phase = ProcPhase.running)
      (hl : σ.st.api_lock = true) :
      SysStep σ σ
  /-- The GET returned 200: apply lines 341-359 and release the lock. -/
  | pollFinishOk (σ : SysState) (resp : DeviceStatus)
      (hph : σ.phase = ProcPhase.running) (hc : σ.pollInCall = true) :
      SysStep σ { σ with st := poll_apply_response σ.st resp, pollInCall := false }
  /-- The GET raised: the exception escapes the loop and reaches the
  module-level handler. -/
  | pollFinishErr (σ : SysState)
      (hph : σ.phase = ProcPhase.running) (hc : σ.pollInCall = true) :
      SysStep σ { σ with phase := ProcPhase.restarting, pollInCall := false }
  /-- Push tick finds `target_temp_is_pending` and `api_lock` free
  (lines 306-307): acquire the lock (line 308) and issue the PUT. -/
  | pushStart (σ : SysState) (hph : σ.phase = ProcPhase.running)
      (hp : σ.st.target_temp_is_pending = true)
      (hl : σ.st.api_lock = false) (hc : σ.pushInCall = false) :
      SysStep σ { σ with st := { σ.st with api_lock := true }, pushInCall := true }
  /-- Push tick with nothing to do: pending unset, or the lock held. -/
  | pushSkip (σ : SysState) (hph : σ.phase = ProcPhase.running)
      (hcond : σ.st.target_temp_is_pending = false ∨ σ.st.api_lock = true) :
      SysStep σ σ
  /-- The PUT returned 200: clear pending and release the lock
  (lines 320-321). -/
  | pushFinishOk (σ : SysState)
      (hph : σ.phase = ProcPhase.running) (hc : σ.pushInCall = true) :
      SysStep σ { σ with st := push_apply_success σ.st, pushInCall := false }
  /-- The PUT raised: the exception escapes the loop; the lock is left
  held. -/
  | pushFinishErr (σ : SysState)
      (hph : σ.phase = ProcPhase.running) (hc : σ.pushInCall = true) :
      SysStep σ { σ with phase := ProcPhase.restarting, pushInCall := false }
  /-- A button press handled by an input loop; input loops never touch
  `api_lock`. -/
  | press (σ : SysState) (p : Press) (hph : σ.phase = ProcPhase.running) :
      SysStep σ { σ with st := apply_press p σ.st }
  /-- `supervisor.reload()` (line 515): the whole program restarts from
  its initial module state. -/
  | reload (σ : SysState) (hph : σ.phase = ProcPhase.restarting) :
      SysStep σ initSys

/-- States reachable from process start. -/
def Reachable (σ : SysState) : Prop :=
  Relation.ReflTransGen SysStep initSys σ

/-- The system state after the poll loop has acquired the lock and issued
its GET. -/
def sysPollInFlight : SysState :=
  { initSys with st := { initSys.st with api_lock := true }, pollInCall := true }

/-- The system state after that GET raised: the exception has escaped the
loop and the process is at the module-level handler, about to reload. -/
def sysAfterPollFailure : SysState :=
  { sysPollInFlight with phase := ProcPhase.restarting, pollInCall := false }

/-- The lock discipline: an in-flight remote call holds `api_lock`, and
the two remote-calling loops are never in flight together. -/
def SysInv (σ : SysState) : Prop :=
  ¬(σ.pollInCall = true ∧ σ.pushInCall = true)
  ∧ (σ.pollInCall = true → σ.st.api_lock = true)
  ∧ (σ.pushInCall = true → σ.st.api_lock = true)

lemma apply_press_api_lock (p : Press) (s : S8State) :
    (apply_press p s).api_lock = s.api_lock := by
  cases p <;> simp only [apply_press, temp_up_press, temp_down_press] <;>
    split_ifs <;> rfl

lemma sysInv_init : SysInv initSys := by
  simp [SysInv, initSys]

lemma sysInv_step {a b : SysState} (hinv : SysInv a) (hs : SysStep a b) :
    SysInv b := by
  obtain ⟨h1, h2, h3⟩ := hinv
  cases hs with
  | pollStart hph hl hc =>
      refine ⟨?_, ?_, ?_⟩
      · intro hcontra
        exact Bool.false_ne_true (hl.symm.trans (h3 hcontra.2))
      · intro _; rfl
      · intro hpush
        exact absurd (hl.symm.trans (h3 hpush)) Bool.false_ne_true
  | pollSkip hph hl => exact ⟨h1, h2, h3⟩
  | pollFinishOk resp hph hc =>
      refine ⟨?_, ?_, ?_⟩
      · intro hcontra; exact Bool.false_ne_true hcontra.1
      · intro hcontra; exact absurd hcontra Bool.false_ne_true
      · intro hpush; exact absurd ⟨hc, hpush⟩ h1
  | pollFinishErr hph hc =>
      refine ⟨?_, ?_, ?_⟩
      · intro hcontra; exact Bool.false_ne_true hcontra.1
      · intro hcontra; exact absurd hcontra Bool.false_ne_true
      · intro hpush; exact absurd ⟨hc, hpush⟩ h1
  | pushStart hph hp hl hc =>
      refine ⟨?_, ?_, ?_⟩
      · intro hcontra
        exact Bool.false_ne_true (hl.symm.trans (h2 hcontra.1))
      · intro hpoll
        exact absurd (hl.symm.trans (h2 hpoll)) Bool.false_ne_true
      · intro _; rfl
  | pushSkip hph hcond => exact ⟨h1, h2, h3⟩
  | pushFinishOk hph hc =>
      refine ⟨?_, ?_, ?_⟩
      · intro hcontra; exact Bool.false_ne_true hcontra.2
      · intro hpoll; exact absurd ⟨hpoll, hc⟩ h1
      · intro hcontra; exact absurd hcontra Bool.false_ne_true
  | pushFinishErr hph hc =>
      refine ⟨?_, ?_, ?_⟩
      · intro hcontra; exact Bool.false_ne_true hcontra.2
      · intro hpoll; exact absurd ⟨hpoll, hc⟩ h1
      · intro hcontra; exact absurd hcontra Bool.false_ne_true
  | press p hph =>
      refine ⟨h1, ?_, ?_⟩
      · intro hpoll
        exact (apply_press_api_lock p a.st).trans (h2 hpoll)
      · intro hpush
        exact (apply_press_api_lock p a.st).trans (h3 hpush)
  | reload hph => exact sysInv_init

lemma sysInv_reachable {σ : SysState} (h : Reachable σ) : SysInv σ := by
  induction h with
  | refl => exact sysInv_init
  | tail _ hstep ih => exact sysInv_step ih hstep

/-! ## Concrete inputs used in the claims -/

/-- A call environment whose first response is a 401 and whose re-issued
request (after re-authentication) would succeed with status 200 and
body 42. -/
def retryEnv : RemoteEnv :=
  { first := { status_code := 401, body := 7 },
    retry := { status_code := 200, body := 42 }, auth_ok := true }

/-- A state with a locally changed target temperature awaiting push. -/
def pendingState : S8State :=
  { initialState with target_temp := 3, target_temp_is_pending := true }

/-! ## Helper lemmas about presses -/

lemma apply_press_target_range (p : Press) (s : S8State)
    (h : -10 ≤ s.target_temp ∧ s.target_temp ≤ 10) :
    -10 ≤ (apply_press p s).target_temp ∧ (apply_press p s).target_temp ≤ 10 := by
  obtain ⟨hlo, hhi⟩ := h
  cases p <;> simp only [apply_press, temp_up_press, temp_down_press] <;>
    split_ifs <;> constructor <;> dsimp only <;> omega

lemma apply_presses_target_range (ps : List Press) (s : S8State)
    (h : -10 ≤ s.target_temp ∧ s.target_temp ≤ 10) :
    -10 ≤ (apply_presses ps s).target_temp ∧ (apply_presses ps s).target_temp ≤ 10 := by
  induction ps generalizing s with
  | nil => exact h
  | cons p ps ih => exact ih (apply_press p s) (apply_press_target_range p s h)

/-! ## Claim theorems -/

/-- C4: for every sequence of up/down presses with the display on,
`target_temp` stays within [-10, 10]; a press of up at `target_temp = 10`
(or down at `-10`) leaves the state unchanged — in particular it does not
set `target_temp_is_pending` — and a press sets pending exactly when it
actually changes `target_temp`. -/
theorem press_clamp_and_pending (s : S8State)
    (hb : s.display_brightness ≠ 0)
    (hlo : -10 ≤ s.target_temp) (hhi : s.target_temp ≤ 10) :
    (∀ ps : List Press,
      -10 ≤ (apply_presses ps s).target_temp
        ∧ (apply_presses ps s).target_temp ≤ 10)
    ∧ (s.target_temp = 10 → temp_up_press s = s)
    ∧ (s.target_temp = -10 → temp_down_press s = s)
    ∧ (∀ p : Press,
        ((apply_press p s).target_temp ≠ s.target_temp →
          (apply_press p s).target_temp_is_pending = true)
        ∧ ((apply_press p s).target_temp = s.target_temp → apply_press p s = s)) := by
  refine ⟨fun ps => apply_presses_target_range ps s ⟨hlo, hhi⟩, ?_, ?_, ?_⟩
  · intro h10
    simp [temp_up_press, hb, h10]
  · intro hm10
    simp [temp_down_press, hb, hm10]
  · intro p
    cases p with
    | up =>
        simp only [apply_press, temp_up_press, if_neg hb]
        by_cases hlt : s.target_temp < 10
        · rw [if_pos hlt]
          refine ⟨fun _ => rfl, fun heq => ?_⟩
          exfalso
          dsimp only at heq
          omega
        · rw [if_neg hlt]
          exact ⟨fun hne => absurd rfl hne, fun _ => rfl⟩
    | down =>
        simp only [apply_press, temp_down_press, if_neg hb]
        by_cases hlt : (-10 : Int) < s.target_temp
        · rw [if_pos hlt]
          refine ⟨fun _ => rfl, fun heq => ?_⟩
          exfalso
          dsimp only at heq
          omega
        · rw [if_neg hlt]
          exact ⟨fun hne => absurd rfl hne, fun _ => rfl⟩

/-- C4 witness: the hypotheses and the conclusion at the program's initial
state. -/
theorem press_clamp_and_pending_witness :
    initialState.display_brightness ≠ 0
    ∧ (-10 : Int) ≤ initialState.target_temp
    ∧ initialState.target_temp ≤ 10
    ∧ ((∀ ps : List Press,
        -10 ≤ (apply_presses ps initialState).target_temp
          ∧ (apply_presses ps initialState).target_temp ≤ 10)
      ∧ (initialState.target_temp = 10 → temp_up_press initialState = initialState)
      ∧ (initialState.target_temp = -10 → temp_down_press initialState = initialState)
      ∧ (∀ p : Press,
          ((apply_press p initialState).target_temp ≠ initialState.target_temp →
            (apply_press p initialState).target_temp_is_pending = true)
          ∧ ((apply_press p initialState).target_temp = initialState.target_temp →
            apply_press p initialState = initialState))) :=
  ⟨by decide, by decide, by decide,
    press_clamp_and_pending initialState (by decide) (by decide) (by decide)⟩

/-- C5: if `target_temp_is_pending` is true when a poll tick executes
(lock free), the tick leaves `target_temp` unchanged whatever the payload
holds, while still updating `current_temp` and `side_active` from it. -/
theorem poll_no_clobber_when_pending (s : S8State) (resp : DeviceStatus)
    (hp : s.target_temp_is_pending = true) (hl : s.api_lock = false) :
    (get_s8_device_tick s resp).target_temp = s.target_temp
    ∧ (get_s8_device_tick s resp).current_temp = py_round_div10 resp.heatingLevel
    ∧ (get_s8_device_tick s resp).side_active = resp.kelvin.active := by
  simp [get_s8_device_tick, poll_apply_response, hl, hp]

/-- C5 witness: a pending state with `target_temp = 7` polled against a
payload reporting target level 30. -/
theorem poll_no_clobber_when_pending_witness :
    ({ initialState with
        target_temp := 7,
        target_temp_is_pending := true } : S8State).target_temp_is_pending = true
    ∧ ({ initialState with
        target_temp := 7,
        target_temp_is_pending := true } : S8State).api_lock = false
    ∧ ((get_s8_device_tick
          { initialState with target_temp := 7, target_temp_is_pending := true }
          { kelvin := { active := true, currentTargetLevel := 30 },
            heatingLevel := 20 }).target_temp
        = ({ initialState with
              target_temp := 7,
              target_temp_is_pending := true } : S8State).target_temp
      ∧ (get_s8_device_tick
          { initialState with target_temp := 7, target_temp_is_pending := true }
          { kelvin := { active := true, currentTargetLevel := 30 },
            heatingLevel := 20 }).current_temp = py_round_div10 20
      ∧ (get_s8_device_tick
          { initialState with target_temp := 7, target_temp_is_pending := true }
          { kelvin := { active := true, currentTargetLevel := 30 },
            heatingLevel := 20 }).side_active = true) :=
  ⟨rfl, rfl,
    poll_no_clobber_when_pending
      { initialState with target_temp := 7, target_temp_is_pending := true }
      { kelvin := { active := true, currentTargetLevel := 30 }, heatingLevel := 20 }
      rfl rfl⟩

/-- C6: a poll tick that runs (lock free) sets
`current_temp = round(heatingLevel / 10)` and `side_active = active`, and
when pending is false also `target_temp = round(currentTargetLevel / 10)`;
the payload `active = false, currentTargetLevel = 50, heatingLevel = 20`
with pending false yields `current_temp = 2`, `target_temp = 5`,
`side_active = false`. -/
theorem poll_tick_field_updates (s : S8State) (resp : DeviceStatus)
    (hl : s.api_lock = false) :
    (get_s8_device_tick s resp).current_temp = py_round_div10 resp.heatingLevel
    ∧ (get_s8_device_tick s resp).side_active = resp.kelvin.active
    ∧ (s.target_temp_is_pending = false →
        (get_s8_device_tick s resp).target_temp
          = py_round_div10 resp.kelvin.currentTargetLevel)
    ∧ ((get_s8_device_tick initialState
          { kelvin := { active := false, currentTargetLevel := 50 },
            heatingLevel := 20 }).current_temp = 2
      ∧ (get_s8_device_tick initialState
          { kelvin := { active := false, currentTargetLevel := 50 },
            heatingLevel := 20 }).target_temp = 5
      ∧ (get_s8_device_tick initialState
          { kelvin := { active := false, currentTargetLevel := 50 },
            heatingLevel := 20 }).side_active = false) := by
  refine ⟨?_, ?_, ?_, by decide⟩
  · simp only [get_s8_device_tick, poll_apply_response, hl, if_true]
    split_ifs <;> rfl
  · simp only [get_s8_device_tick, poll_apply_response, hl, if_true]
    split_ifs <;> rfl
  · intro hpf
    simp [get_s8_device_tick, poll_apply_response, hl, hpf]

/-- C6 witness: the initial state (lock free, pending false) polled
against the scenario-B payload. -/
theorem poll_tick_field_updates_witness :
    (initialState.api_lock = false)
    ∧ ((get_s8_device_tick initialState
          { kelvin := { active := false, currentTargetLevel := 50 },
            heatingLevel := 20 }).current_temp = py_round_div10 20
      ∧ (get_s8_device_tick initialState
          { kelvin := { active := false, currentTargetLevel := 50 },
            heatingLevel := 20 }).side_active = false
      ∧ (initialState.target_temp_is_pending = false →
          (get_s8_device_tick initialState
            { kelvin := { active := false, currentTargetLevel := 50 },
              heatingLevel := 20 }).target_temp = py_round_div10 50)
      ∧ ((get_s8_device_tick initialState
            { kelvin := { active := false, currentTargetLevel := 50 },
              heatingLevel := 20 }).current_temp = 2
        ∧ (get_s8_device_tick initialState
            { kelvin := { active := false, currentTargetLevel := 50 },
              heatingLevel := 20 }).target_temp = 5
        ∧ (get_s8_device_tick initialState
            { kelvin := { active := false, currentTargetLevel := 50 },
              heatingLevel := 20 }).side_active = false)) :=
  ⟨rfl, poll_tick_field_updates initialState
      { kelvin := { active := false, currentTargetLevel := 50 }, heatingLevel := 20 }
      rfl⟩

/-- C7: a push tick with pending set and the lock free sends the body
`currentLevel = target_temp * 10, currentState.type = "smart"` built from
`target_temp` as it is at call time, and clears pending on success; after
three up presses from the scenario-A start the remote receives
`currentLevel = 30`. -/
theorem push_sends_latest_target (s : S8State)
    (hp : s.target_temp_is_pending = true) (hl : s.api_lock = false) :
    (set_s8_target_temp_tick s true).2
        = PushResult.pushed { currentLevel := s.target_temp * 10, currentStateType := "smart" }
    ∧ (set_s8_target_temp_tick s true).1.target_temp_is_pending = false
    ∧ ((apply_presses [Press.up, Press.up, Press.up]
          { initialState with side_active := true }).target_temp = 3
      ∧ (apply_presses [Press.up, Press.up, Press.up]
          { initialState with side_active := true }).target_temp_is_pending = true
      ∧ (set_s8_target_temp_tick
          (apply_presses [Press.up, Press.up, Press.up]
            { initialState with side_active := true }) true).2
          = PushResult.pushed { currentLevel := 30, currentStateType := "smart" }
      ∧ (set_s8_target_temp_tick
          (apply_presses [Press.up, Press.up, Press.up]
            { initialState with side_active := true }) true).1.target_temp_is_pending
          = false) := by
  refine ⟨?_, ?_, by decide⟩
  · simp [set_s8_target_temp_tick, push_payload, hp, hl]
  · simp [set_s8_target_temp_tick, push_apply_success, hp, hl]

/-- C7 witness: a pending state with `target_temp = 5` and a successful
PUT. -/
theorem push_sends_latest_target_witness :
    ({ initialState with
        target_temp := 5,
        target_temp_is_pending := true } : S8State).target_temp_is_pending = true
    ∧ ({ initialState with
        target_temp := 5,
        target_temp_is_pending := true } : S8State).api_lock = false
    ∧ ((set_s8_target_temp_tick
          { initialState with target_temp := 5, target_temp_is_pending := true } true).2
        = PushResult.pushed { currentLevel := 5 * 10, currentStateType := "smart" }
      ∧ (set_s8_target_temp_tick
          { initialState with target_temp := 5, target_temp_is_pending := true }
          true).1.target_temp_is_pending = false
      ∧ ((apply_presses [Press.up, Press.up, Press.up]
            { initialState with side_active := true }).target_temp = 3
        ∧ (apply_presses [Press.up, Press.up, Press.up]
            { initialState with side_active := true }).target_temp_is_pending = true
        ∧ (set_s8_target_temp_tick
            (apply_presses [Press.up, Press.up, Press.up]
              { initialState with side_active := true }) true).2
            = PushResult.pushed { currentLevel := 30, currentStateType := "smart" }
        ∧ (set_s8_target_temp_tick
            (apply_presses [Press.up, Press.up, Press.up]
              { initialState with side_active := true }) true).1.target_temp_is_pending
            = false)) :=
  ⟨rfl, rfl,
    push_sends_latest_target
      { initialState with target_temp := 5, target_temp_is_pending := true } rfl rfl⟩

/-- C10: a button press arriving while the display is dark only turns the
display back on and suppresses the next auto-off; `target_temp` and
`target_temp_is_pending` are untouched. -/
theorem dark_press_only_wakes_display (s : S8State)
    (hb : s.display_brightness = 0) (p : Press) :
    (apply_press p s).target_temp = s.target_temp
    ∧ (apply_press p s).target_temp_is_pending = s.target_temp_is_pending
    ∧ (apply_press p s).display_brightness = 1
    ∧ (apply_press p s).skip_next_display_off = true := by
  cases p <;> simp [apply_press, temp_up_press, temp_down_press, hb]

/-- C1: on a single 401 followed by a successful retry, `get_8s` does
perform one re-authentication and re-issue the request once, but then
raises `RuntimeError` on the saved 401 status instead of returning the
retried response's body; `put_8s` behaves the same and moreover issues
its retry as a GET. -/
theorem get_8s_discards_retry :
    (get_8s retryEnv).result = CallResult.runtimeError 401
    ∧ (get_8s retryEnv).reauth_calls = 1
    ∧ (get_8s retryEnv).requests_sent = 2
    ∧ (get_8s retryEnv).result ≠ CallResult.ok 42
    ∧ retryEnv.retry.status_code = 200
    ∧ (put_8s retryEnv).result = CallResult.runtimeError 401
    ∧ (put_8s retryEnv).retry_method = some HttpMethod.get := by
  decide

/-- C2 counterexample: a push tick whose PUT fails leaves `api_lock` set
to `true` — the claim that busy is set back to false when the tick ends
in all cases fails on the failure path. -/
theorem push_failure_leaves_lock_set :
    (set_s8_target_temp_tick pendingState false).1.api_lock = true
    ∧ (set_s8_target_temp_tick pendingState false).2
        = PushResult.failed { currentLevel := 30, currentStateType := "smart" } := by
  decide

/-- C2 (amended): on a push tick that starts a push, success clears both
`target_temp_is_pending` and `api_lock`; failure raises out of the tick
with `api_lock` left `true` and `target_temp_is_pending` still `true`. -/
theorem push_tick_success_and_failure (s : S8State)
    (hp : s.target_temp_is_pending = true) (hl : s.api_lock = false) :
    ((set_s8_target_temp_tick s true).1.api_lock = false
      ∧ (set_s8_target_temp_tick s true).1.target_temp_is_pending = false
      ∧ (set_s8_target_temp_tick s true).2 = PushResult.pushed (push_payload s))
    ∧ ((set_s8_target_temp_tick s false).1.api_lock = true
      ∧ (set_s8_target_temp_tick s false).1.target_temp_is_pending = true
      ∧ (set_s8_target_temp_tick s false).2 = PushResult.failed (push_payload s)) := by
  simp [set_s8_target_temp_tick, push_apply_success, hp, hl]

/-- C2 witness: the pending state pushed with a succeeding and with a
failing PUT. -/
theorem push_tick_success_and_failure_witness :
    pendingState.target_temp_is_pending = true
    ∧ pendingState.api_lock = false
    ∧ (((set_s8_target_temp_tick pendingState true).1.api_lock = false
        ∧ (set_s8_target_temp_tick pendingState true).1.target_temp_is_pending = false
        ∧ (set_s8_target_temp_tick pendingState true).2
            = PushResult.pushed (push_payload pendingState))
      ∧ ((set_s8_target_temp_tick pendingState false).1.api_lock = true
        ∧ (set_s8_target_temp_tick pendingState false).1.target_temp_is_pending = true
        ∧ (set_s8_target_temp_tick pendingState false).2
            = PushResult.failed (push_payload pendingState))) :=
  ⟨rfl, rfl, push_tick_success_and_failure pendingState rfl rfl⟩

/-- C8 counterexample: a display tick with `side_active = false` does not
render "Off" when the last rendered target text already equals
`str(target_temp)` — here the label keeps showing "5". -/
theorem off_not_rendered_when_text_unchanged :
    (update_display_tick { initialDisplay with target_text_last_set := "5" }
        0 5 false).target_text_last_set = "5"
    ∧ (update_display_tick { initialDisplay with target_text_last_set := "5" }
        0 5 false).target_text_last_set ≠ "Off" := by
  decide

/-- C8 (amended): on a tick with `side_active = false` the target label
is set to "Off" exactly when the last rendered target text differs from
`str(target_temp)`; when they coincide the tick leaves the rendered
target text unchanged. -/
theorem target_text_render_rule (d : DisplayState) (ct tt : Int) :
    (update_display_tick d ct tt false).target_text_last_set =
      if d.target_text_last_set = toString tt then d.target_text_last_set
      else "Off" := by
  simp only [update_display_tick]
  split_ifs <;> simp_all

/-- C3 counterexample: a concrete reachable execution in which a poll
iteration's GET raises, after which the process is in the restarting
phase — the loop does not carry on to its next tick. -/
theorem poll_failure_reaches_restart :
    Reachable sysAfterPollFailure
    ∧ sysAfterPollFailure.phase = ProcPhase.restarting
    ∧ sysAfterPollFailure.pollInCall = false := by
  refine ⟨?_, rfl, rfl⟩
  have h1 : SysStep initSys sysPollInFlight :=
    SysStep.pollStart initSys rfl rfl rfl
  have h2 : SysStep sysPollInFlight sysAfterPollFailure :=
    SysStep.pollFinishErr sysPollInFlight rfl rfl
  exact Relation.ReflTransGen.tail (Relation.ReflTransGen.single h1) h2

/-- C3 (amended): a remote-call failure inside a poll or push iteration
propagates out of the loop to the module-level handler, putting the
process in the restarting phase; from there the only step is
`supervisor.reload()`, restarting the whole program from its initial
state — the loop never just continues with its next tick. -/
theorem failure_propagates_to_supervisor (σ : SysState)
    (hph : σ.phase = ProcPhase.running) :
    (σ.pollInCall = true →
      SysStep σ { σ with phase := ProcPhase.restarting, pollInCall := false })
    ∧ (σ.pushInCall = true →
      SysStep σ { σ with phase := ProcPhase.restarting, pushInCall := false })
    ∧ (∀ σ1 σ2 : SysState, σ1.phase = ProcPhase.restarting →
        SysStep σ1 σ2 → σ2 = initSys) := by
  refine ⟨fun hc => SysStep.pollFinishErr σ hph hc,
          fun hc => SysStep.pushFinishErr σ hph hc, ?_⟩
  intro σ1 σ2 hres hstep
  cases hstep with
  | pollStart hph2 hl hc => exact absurd (hres.symm.trans hph2) (by decide)
  | pollSkip hph2 hl => exact absurd (hres.symm.trans hph2) (by decide)
  | pollFinishOk resp hph2 hc => exact absurd (hres.symm.trans hph2) (by decide)
  | pollFinishErr hph2 hc => exact absurd (hres.symm.trans hph2) (by decide)
  | pushStart hph2 hp hl hc => exact absurd (hres.symm.trans hph2) (by decide)
  | pushSkip hph2 hcond => exact absurd (hres.symm.trans hph2) (by decide)
  | pushFinishOk hph2 hc => exact absurd (hres.symm.trans hph2) (by decide)
  | pushFinishErr hph2 hc => exact absurd (hres.symm.trans hph2) (by decide)
  | press p hph2 => exact absurd (hres.symm.trans hph2) (by decide)
  | reload hph2 => rfl

/-- C3 witness: the amended statement at the state where the poll loop is
mid-flight. -/
theorem failure_propagates_to_supervisor_witness :
    sysPollInFlight.phase = ProcPhase.running
    ∧ ((sysPollInFlight.pollInCall = true →
        SysStep sysPollInFlight
          { sysPollInFlight with phase := ProcPhase.restarting, pollInCall := false })
      ∧ (sysPollInFlight.pushInCall = true →
        SysStep sysPollInFlight
          { sysPollInFlight with phase := ProcPhase.restarting, pushInCall := false })
      ∧ (∀ σ1 σ2 : SysState, σ1.phase = ProcPhase.restarting →
          SysStep σ1 σ2 → σ2 = initSys)) :=
  ⟨rfl, failure_propagates_to_supervisor sysPollInFlight rfl⟩

/-- C9: in every reachable state the poll loop and the push loop are never
both mid-flight on a remote call (the `api_lock` test-and-set serializes
them), and a poll tick that finds the lock held is skipped entirely, the
state unchanged. -/
theorem remote_call_mutual_exclusion (σ : SysState) (h : Reachable σ) :
    ¬(σ.pollInCall = true ∧ σ.pushInCall = true)
    ∧ (∀ s : S8State, ∀ resp : DeviceStatus, s.api_lock = true →
        get_s8_device_tick s resp = s) := by
  refine ⟨(sysInv_reachable h).1, ?_⟩
  intro s resp hl
  simp [get_s8_device_tick, hl]

/-- C9 witness: the statement at the (reachable) initial system state. -/
theorem remote_call_mutual_exclusion_witness :
    Reachable initSys
    ∧ (¬(initSys.pollInCall = true ∧ initSys.pushInCall = true)
      ∧ (∀ s : S8State, ∀ resp : DeviceStatus, s.api_lock = true →
          get_s8_device_tick s resp = s)) :=
  ⟨Relation.ReflTransGen.refl,
    remote_call_mutual_exclusion initSys Relation.ReflTransGen.refl⟩

/-- C10 witness: an up press on the initial state with the display turned
off. -/
theorem dark_press_only_wakes_display_witness :
    ({ initialState with display_brightness := 0 } : S8State).display_brightness = 0
    ∧ ((apply_press Press.up { initialState with display_brightness := 0 }).target_temp
        = ({ initialState with display_brightness := 0 } : S8State).target_temp
      ∧ (apply_press Press.up { initialState with display_brightness := 0 }).target_temp_is_pending
        = ({ initialState with display_brightness := 0 } : S8State).target_temp_is_pending
      ∧ (apply_press Press.up { initialState with display_brightness := 0 }).display_brightness = 1
      ∧ (apply_press Press.up { initialState with display_brightness := 0 }).skip_next_display_off
        = true) :=
  ⟨rfl, dark_press_only_wakes_display
      { initialState with display_brightness := 0 } rfl Press.up⟩

end EightS
